import Mathlib

/-
Verification development for the reazy-papi financial projection core.

Embedded modules (translated from the Python source, with floats modelled
as exact rationals):
  - app/services/financial_assumptions_service.py (tax tables, RMD table,
    federal income tax, capital gains tax, marginal rate)
  - app/services/monte_carlo.py (per-run balance recurrence of
    MonteCarloService.run_simulation; the random return draws are an
    explicit input sequence)
  - app/services/retirement_service.py
    (RetirementService.calculate_financial_projections)
-/

namespace Reazy

/-- Python str.lower modelled characterwise. -/
def pyLower (s : String) : String := String.mk (s.data.map Char.toLower)

/-- STANDARD_DEDUCTION_2024 dictionary. -/
def STANDARD_DEDUCTION_2024 (s : String) : Option ℚ :=
  if s = "single" then some 14600
  else if s = "married_jointly" then some 29200
  else if s = "head_household" then some 21900
  else none

/-- The shared status-resolution step of the tax functions:
status = filing_status.lower(); if not in STANDARD_DEDUCTION_2024 use single. -/
def resolveStatus (s : String) : String :=
  if (STANDARD_DEDUCTION_2024 (pyLower s)).isSome then pyLower s else "single"

/-- Resolved standard deduction (the dictionary access on the resolved key). -/
def stdDeduction (s : String) : ℚ :=
  (STANDARD_DEDUCTION_2024 (resolveStatus s)).getD 0

/-- TAX_BRACKETS_2024 single entry: list of pairs of lower limit and rate. -/
def TAX_BRACKETS_single : List (ℚ × ℚ) :=
  [(0, (10/100 : ℚ)), (11600, (12/100 : ℚ)), (47150, (22/100 : ℚ)), (100525, (24/100 : ℚ)),
   (191950, (32/100 : ℚ)), (243725, (35/100 : ℚ)), (609350, (37/100 : ℚ))]

/-- TAX_BRACKETS_2024 married_jointly entry. -/
def TAX_BRACKETS_married : List (ℚ × ℚ) :=
  [(0, (10/100 : ℚ)), (23200, (12/100 : ℚ)), (94300, (22/100 : ℚ)), (201050, (24/100 : ℚ)),
   (383900, (32/100 : ℚ)), (487450, (35/100 : ℚ)), (731200, (37/100 : ℚ))]

/-- TAX_BRACKETS_2024 dictionary: it has no entry for head_household. -/
def TAX_BRACKETS_2024 (s : String) : Option (List (ℚ × ℚ)) :=
  if s = "single" then some TAX_BRACKETS_single
  else if s = "married_jointly" then some TAX_BRACKETS_married
  else none

/-- CAP_GAINS_BRACKETS_2024 single entry. -/
def CAP_GAINS_single : List (ℚ × ℚ) := [(0, 0), (47025, (15/100 : ℚ)), (518900, (20/100 : ℚ))]

/-- CAP_GAINS_BRACKETS_2024 married_jointly entry. -/
def CAP_GAINS_married : List (ℚ × ℚ) := [(0, 0), (94050, (15/100 : ℚ)), (583750, (20/100 : ℚ))]

/-- CAP_GAINS_BRACKETS_2024 dictionary: no entry for head_household. -/
def CAP_GAINS_BRACKETS_2024 (s : String) : Option (List (ℚ × ℚ)) :=
  if s = "single" then some CAP_GAINS_single
  else if s = "married_jointly" then some CAP_GAINS_married
  else none

/-- min(taxable_income, bracket_cap) where the cap is the next lower limit
and the last bracket is unbounded (min with infinity is the income itself). -/
def bracketTop (ti : ℚ) : List (ℚ × ℚ) → ℚ
  | [] => ti
  | (nlo, _) :: _ => min ti nlo

/-- The progressive-bracket loop of calculate_federal_income_tax.
Each bracket is capped by the next lower limit (the last one is unbounded);
the loop breaks as soon as taxable income no longer exceeds the lower limit. -/
def bracketTax (ti : ℚ) : List (ℚ × ℚ) → ℚ
  | [] => 0
  | (lo, r) :: rest =>
    if lo < ti then (bracketTop ti rest - lo) * r + bracketTax ti rest
    else 0

/-- FinancialAssumptionsService.calculate_federal_income_tax. -/
def calculate_federal_income_tax (income : ℚ) (filing : String) : ℚ :=
  let status := resolveStatus filing
  let sd := (STANDARD_DEDUCTION_2024 status).getD 0
  let taxableIncome := max 0 (income - sd)
  let brackets := (TAX_BRACKETS_2024 status).getD TAX_BRACKETS_single
  bracketTax taxableIncome brackets

/-- min(total_taxable, bracket_cap): the segment end used by the
capital-gains loop (cap is the next lower limit, last bracket unbounded). -/
def stackSegEnd (b : ℚ) : List (ℚ × ℚ) → ℚ
  | [] => b
  | (nlo, _) :: _ => min b nlo

/-- The bracket loop of calculate_capital_gains_tax: for each bracket,
intersect the stack segment from a to b with the bracket range and tax the
overlap at the bracket rate (no early break in the source loop). -/
def stackTax (a b : ℚ) : List (ℚ × ℚ) → ℚ
  | [] => 0
  | (lo, r) :: rest =>
    (if max a lo < stackSegEnd b rest then (stackSegEnd b rest - max a lo) * r else 0) +
      stackTax a b rest

/-- FinancialAssumptionsService.calculate_capital_gains_tax. -/
def calculate_capital_gains_tax (income gains : ℚ) (filing : String) : ℚ :=
  let status := resolveStatus filing
  let sd := (STANDARD_DEDUCTION_2024 status).getD 0
  let taxableOrdinary := max 0 (income - sd)
  let totalTaxable := taxableOrdinary + gains
  let brackets := (CAP_GAINS_BRACKETS_2024 status).getD CAP_GAINS_single
  stackTax taxableOrdinary totalTaxable brackets

/-- The scan loop of get_marginal_rate: keep the rate of the highest bracket
whose lower limit is strictly below taxable income, breaking at the first
bracket that is not. -/
def marginalScan (ti : ℚ) : List (ℚ × ℚ) → ℚ → ℚ
  | [], cur => cur
  | (lo, r) :: rest, cur => if lo < ti then marginalScan ti rest r else cur

/-- FinancialAssumptionsService.get_marginal_rate. -/
def get_marginal_rate (income : ℚ) (filing : String) : ℚ :=
  let status := resolveStatus filing
  let sd := (STANDARD_DEDUCTION_2024 status).getD 0
  let taxableIncome := max 0 (income - sd)
  let brackets := (TAX_BRACKETS_2024 status).getD TAX_BRACKETS_single
  marginalScan taxableIncome brackets 0

/-- RMD_UNIFORM_LIFETIME_TABLE as an association list keyed by age. -/
def RMD_UNIFORM_LIFETIME_TABLE : List (ℤ × ℚ) :=
  [(72, (274/10 : ℚ)), (73, (265/10 : ℚ)), (74, (255/10 : ℚ)),
   (75, (246/10 : ℚ)), (76, (237/10 : ℚ)), (77, (229/10 : ℚ)), (78, (220/10 : ℚ)), (79, (211/10 : ℚ)),
   (80, (202/10 : ℚ)), (81, (194/10 : ℚ)), (82, (185/10 : ℚ)), (83, (177/10 : ℚ)), (84, (168/10 : ℚ)),
   (85, (160/10 : ℚ)), (86, (152/10 : ℚ)), (87, (144/10 : ℚ)), (88, (137/10 : ℚ)), (89, (129/10 : ℚ)),
   (90, (122/10 : ℚ)), (91, (115/10 : ℚ)), (92, (108/10 : ℚ)), (93, (101/10 : ℚ)), (94, (95/10 : ℚ)),
   (95, (89/10 : ℚ)), (96, (84/10 : ℚ)), (97, (78/10 : ℚ)), (98, (73/10 : ℚ)), (99, (68/10 : ℚ)),
   (100, (64/10 : ℚ)), (101, (60/10 : ℚ)), (102, (56/10 : ℚ)), (103, (52/10 : ℚ)), (104, (49/10 : ℚ)),
   (105, (46/10 : ℚ)), (106, (43/10 : ℚ)), (107, (41/10 : ℚ)), (108, (39/10 : ℚ)), (109, (37/10 : ℚ)),
   (110, (35/10 : ℚ)), (111, (34/10 : ℚ)), (112, (33/10 : ℚ)), (113, (31/10 : ℚ)), (114, (30/10 : ℚ)),
   (115, (29/10 : ℚ))]

/-- FinancialAssumptionsService.get_rmd_divisor. -/
def get_rmd_divisor (age : ℤ) : ℚ :=
  if age < 73 then 0
  else if 115 ≤ age then (29/10 : ℚ)
  else (List.lookup age RMD_UNIFORM_LIFETIME_TABLE).getD (274/10 : ℚ)

/-- The risk-profile parameter selection of MonteCarloService.run_simulation:
profiles.get(risk_profile.lower(), profiles["moderate"]), giving (mu, sigma). -/
def mcProfiles (risk : String) : ℚ × ℚ :=
  if pyLower risk = "conservative" then (5/100, 6/100)
  else if pyLower risk = "moderate" then (7/100, 12/100)
  else if pyLower risk = "aggressive" then (9/100, 18/100)
  else (7/100, 12/100)

/-- One run of the balance recurrence of MonteCarloService.run_simulation:
entry (run, t) of sim_balances, with the random draws of that run given as the
explicit sequence ret. Column 0 is current_balance; each later column grows
the previous one by its return, adds the contribution while t is at most
years_to_retirement and subtracts the withdrawal afterwards, then clamps at 0. -/
def mcBalance (cb contribution withdrawal : ℚ) (ytr : ℕ) (ret : ℕ → ℚ) : ℕ → ℚ
  | 0 => cb
  | t + 1 =>
    let upd :=
      if t + 1 ≤ ytr then mcBalance cb contribution withdrawal ytr ret t * (1 + ret (t + 1)) + contribution
      else mcBalance cb contribution withdrawal ytr ret t * (1 + ret (t + 1)) - withdrawal
    max upd 0

/-! ### Basic facts about status resolution and the bracket tables -/

theorem resolveStatus_single : resolveStatus "single" = "single" := rfl

theorem resolveStatus_married : resolveStatus "married_jointly" = "married_jointly" := rfl

theorem resolveStatus_hh : resolveStatus "head_household" = "head_household" := rfl

theorem sd_isSome_iff (s : String) :
    (STANDARD_DEDUCTION_2024 s).isSome = true ↔
      s = "single" ∨ s = "married_jointly" ∨ s = "head_household" := by
  unfold STANDARD_DEDUCTION_2024
  split_ifs with h1 h2 h3 <;> simp_all

theorem resolveStatus_cases (s : String) :
    resolveStatus s = "single" ∨ resolveStatus s = "married_jointly" ∨
      resolveStatus s = "head_household" := by
  unfold resolveStatus
  split_ifs with h
  · exact (sd_isSome_iff (pyLower s)).1 h
  · exact Or.inl rfl

/-- Rates in a bracket table are non-negative. -/
def RatesNonneg (l : List (ℚ × ℚ)) : Prop := ∀ p ∈ l, 0 ≤ p.2

/-- Bracket lower limits appear in ascending order. -/
def LowerAscending (l : List (ℚ × ℚ)) : Prop := l.Chain' (fun p q => p.1 ≤ q.1)

theorem tax_brackets_single_ok : RatesNonneg TAX_BRACKETS_single ∧ LowerAscending TAX_BRACKETS_single := by
  constructor
  · intro p hp
    simp only [TAX_BRACKETS_single, List.mem_cons, List.not_mem_nil, or_false] at hp
    rcases hp with h | h | h | h | h | h | h <;> rw [h] <;> norm_num
  · simp only [LowerAscending, TAX_BRACKETS_single, List.chain'_cons, List.chain'_singleton, and_true]
    norm_num

theorem tax_brackets_married_ok : RatesNonneg TAX_BRACKETS_married ∧ LowerAscending TAX_BRACKETS_married := by
  constructor
  · intro p hp
    simp only [TAX_BRACKETS_married, List.mem_cons, List.not_mem_nil, or_false] at hp
    rcases hp with h | h | h | h | h | h | h <;> rw [h] <;> norm_num
  · simp only [LowerAscending, TAX_BRACKETS_married, List.chain'_cons, List.chain'_singleton, and_true]
    norm_num

/-- The bracket list actually used by the ordinary-income tax functions is one
of the two table entries (head_household falls back to the single list). -/
theorem resolved_tax_brackets_cases (fs : String) :
    (TAX_BRACKETS_2024 (resolveStatus fs)).getD TAX_BRACKETS_single = TAX_BRACKETS_single ∨
      (TAX_BRACKETS_2024 (resolveStatus fs)).getD TAX_BRACKETS_single = TAX_BRACKETS_married := by
  rcases resolveStatus_cases fs with h | h | h <;> rw [h] <;> simp [TAX_BRACKETS_2024]

/-! ### Monotonicity and zero-below-deduction of the progressive bracket loop -/

theorem bracketTax_nonneg (l : List (ℚ × ℚ)) (hr : RatesNonneg l) (ha : LowerAscending l)
    (ti : ℚ) : 0 ≤ bracketTax ti l := by
  induction l with
  | nil => simp [bracketTax]
  | cons hd tl ih =>
    obtain ⟨lo, r⟩ := hd
    rw [bracketTax]
    split_ifs with h
    · have hrtl : RatesNonneg tl := fun p hp => hr p (List.mem_cons_of_mem _ hp)
      have hatl : LowerAscending tl := ha.tail
      have h0 : 0 ≤ r := hr (lo, r) (List.mem_cons_self _ _)
      have hterm : 0 ≤ bracketTop ti tl - lo := by
        cases tl with
        | nil => exact sub_nonneg.mpr h.le
        | cons hd2 tl2 =>
          obtain ⟨nlo, r2⟩ := hd2
          have hlole : lo ≤ nlo := (List.chain'_cons.mp ha).1
          rw [bracketTop]
          exact sub_nonneg.mpr (le_min h.le hlole)
      exact add_nonneg (mul_nonneg hterm h0) (ih hrtl hatl)
    · exact le_refl 0

theorem bracketTax_mono (l : List (ℚ × ℚ)) (hr : RatesNonneg l) (ha : LowerAscending l)
    {t1 t2 : ℚ} (h12 : t1 ≤ t2) : bracketTax t1 l ≤ bracketTax t2 l := by
  induction l with
  | nil => simp [bracketTax]
  | cons hd tl ih =>
    obtain ⟨lo, r⟩ := hd
    by_cases h2 : lo < t2
    · by_cases h1 : lo < t1
      · rw [bracketTax, bracketTax, if_pos h1, if_pos h2]
        have hrtl : RatesNonneg tl := fun p hp => hr p (List.mem_cons_of_mem _ hp)
        have hatl : LowerAscending tl := ha.tail
        have h0 : 0 ≤ r := hr (lo, r) (List.mem_cons_self _ _)
        refine add_le_add ?_ (ih hrtl hatl)
        have htop : bracketTop t1 tl ≤ bracketTop t2 tl := by
          cases tl with
          | nil => exact h12
          | cons hd2 tl2 =>
            obtain ⟨nlo, r2⟩ := hd2
            rw [bracketTop, bracketTop]
            exact min_le_min h12 (le_refl nlo)
        exact mul_le_mul_of_nonneg_right (sub_le_sub_right htop lo) h0
      · calc bracketTax t1 ((lo, r) :: tl) = 0 := by rw [bracketTax, if_neg h1]
          _ ≤ bracketTax t2 ((lo, r) :: tl) := bracketTax_nonneg _ hr ha t2
    · have h1 : ¬ lo < t1 := fun hc => h2 (hc.trans_le h12)
      rw [bracketTax, bracketTax, if_neg h1, if_neg h2]

/-- The bracket list used for a given filing status satisfies both
well-formedness conditions. -/
theorem resolved_tax_brackets_ok (fs : String) :
    RatesNonneg ((TAX_BRACKETS_2024 (resolveStatus fs)).getD TAX_BRACKETS_single) ∧
      LowerAscending ((TAX_BRACKETS_2024 (resolveStatus fs)).getD TAX_BRACKETS_single) := by
  rcases resolved_tax_brackets_cases fs with h | h <;> rw [h]
  · exact tax_brackets_single_ok
  · exact tax_brackets_married_ok

/-- Whatever the status, the resolved ordinary bracket list starts at floor 0. -/
theorem resolved_tax_brackets_zero_head (fs : String) :
    ∃ r rest, (TAX_BRACKETS_2024 (resolveStatus fs)).getD TAX_BRACKETS_single = (0, r) :: rest := by
  rcases resolved_tax_brackets_cases fs with h | h <;> rw [h]
  · exact ⟨_, _, rfl⟩
  · exact ⟨_, _, rfl⟩

/-- C4: for every fixed filing status, calculate_federal_income_tax is
monotonically non-decreasing in gross ordinary income, and it returns exactly
0 for every income at most that status's (resolved) standard deduction. -/
theorem federal_tax_monotone_and_zero_below_deduction :
    (∀ (fs : String) (i1 i2 : ℚ), i1 ≤ i2 →
      calculate_federal_income_tax i1 fs ≤ calculate_federal_income_tax i2 fs) ∧
    (∀ (fs : String) (i : ℚ), i ≤ stdDeduction fs → calculate_federal_income_tax i fs = 0) := by
  constructor
  · intro fs i1 i2 h12
    unfold calculate_federal_income_tax
    obtain ⟨hr, ha⟩ := resolved_tax_brackets_ok fs
    exact bracketTax_mono _ hr ha
      (max_le_max (le_refl 0) (sub_le_sub_right h12 _))
  · intro fs i h
    show bracketTax (max 0 (i - stdDeduction fs))
        ((TAX_BRACKETS_2024 (resolveStatus fs)).getD TAX_BRACKETS_single) = 0
    have hti : max 0 (i - stdDeduction fs) = 0 := max_eq_left (sub_nonpos.mpr h)
    rw [hti]
    obtain ⟨r, rest, hb⟩ := resolved_tax_brackets_zero_head fs
    rw [hb, bracketTax, if_neg (lt_irrefl 0)]

theorem stdDeduction_single : stdDeduction "single" = 14600 := rfl

/-- Witness for C4 at concrete inputs. -/
theorem federal_tax_monotone_and_zero_below_deduction_witness :
    calculate_federal_income_tax 50000 "single" ≤ calculate_federal_income_tax 60000 "single" ∧
      calculate_federal_income_tax 14000 "single" = 0 :=
  ⟨federal_tax_monotone_and_zero_below_deduction.1 "single" 50000 60000 (by norm_num),
   federal_tax_monotone_and_zero_below_deduction.2 "single" 14000
     (by rw [stdDeduction_single]; norm_num)⟩

/-- C5: get_rmd_divisor is 0 below age 73, the Uniform Lifetime Table value
for ages 73 through 114 (the table entry exists for each such age), and a
flat 2.9 from age 115 on; with the four quoted values. -/
theorem rmd_divisor_spec :
    (∀ a : ℤ, a < 73 → get_rmd_divisor a = 0) ∧
    (∀ a : ℤ, 73 ≤ a → a ≤ 114 →
      (List.lookup a RMD_UNIFORM_LIFETIME_TABLE).isSome = true ∧
      get_rmd_divisor a = (List.lookup a RMD_UNIFORM_LIFETIME_TABLE).getD 0) ∧
    (∀ a : ℤ, 115 ≤ a → get_rmd_divisor a = 29/10) ∧
    get_rmd_divisor 72 = 0 ∧ get_rmd_divisor 73 = 265/10 ∧
    get_rmd_divisor 90 = 122/10 ∧ get_rmd_divisor 120 = 29/10 := by
  refine ⟨?_, ?_, ?_, rfl, rfl, rfl, rfl⟩
  · intro a h
    unfold get_rmd_divisor
    rw [if_pos h]
  · intro a h1 h2
    interval_cases a <;> exact ⟨rfl, rfl⟩
  · intro a h
    unfold get_rmd_divisor
    rw [if_neg (by omega), if_pos h]

/-- Witness for C5 at concrete ages. -/
theorem rmd_divisor_spec_witness :
    get_rmd_divisor 60 = 0 ∧
      ((List.lookup (80 : ℤ) RMD_UNIFORM_LIFETIME_TABLE).isSome = true ∧
        get_rmd_divisor 80 = (List.lookup (80 : ℤ) RMD_UNIFORM_LIFETIME_TABLE).getD 0) ∧
      get_rmd_divisor 130 = 29/10 :=
  ⟨rmd_divisor_spec.1 60 (by norm_num),
   rmd_divisor_spec.2.1 80 (by norm_num) (by norm_num),
   rmd_divisor_spec.2.2.1 130 (by norm_num)⟩

/-- Specification-side restatement of capital-gains stacking: each bracket
taxes the length of the intersection of the stack interval
[taxableOrdinary, taxableOrdinary + gains] with the bracket range at the
bracket rate (the cap of a bracket is the next bracket floor, the last
bracket is unbounded). -/
def stackSpecTax (a b : ℚ) : List (ℚ × ℚ) → ℚ
  | [] => 0
  | (lo, r) :: rest =>
    max 0 (stackSegEnd b rest - max a lo) * r + stackSpecTax a b rest

/-- The source loop computes exactly the interval-intersection sum. -/
theorem stackTax_eq_spec (a b : ℚ) (l : List (ℚ × ℚ)) : stackTax a b l = stackSpecTax a b l := by
  induction l with
  | nil => rfl
  | cons hd tl ih =>
    obtain ⟨lo, r⟩ := hd
    rw [stackTax, stackSpecTax, ih]
    rcases lt_or_ge (max a lo) (stackSegEnd b tl) with h | h
    · rw [if_pos h, max_eq_right (sub_nonneg.mpr h.le)]
    · rw [if_neg (not_lt.mpr h), max_eq_left (sub_nonpos.mpr h), zero_mul]

/-- C6: calculate_capital_gains_tax taxes the part of the stacked interval
intersecting each capital-gains bracket at that bracket rate; for status
single with gross ordinary income 0, any gains G with 0 ≤ G ≤ 47025 yield
tax exactly 0. -/
theorem cap_gains_stacking_and_zero_bracket :
    (∀ (inc g : ℚ) (fs : String),
      calculate_capital_gains_tax inc g fs =
        stackSpecTax (max 0 (inc - stdDeduction fs)) (max 0 (inc - stdDeduction fs) + g)
          ((CAP_GAINS_BRACKETS_2024 (resolveStatus fs)).getD CAP_GAINS_single)) ∧
    (∀ g : ℚ, 0 ≤ g → g ≤ 47025 → calculate_capital_gains_tax 0 g "single" = 0) := by
  constructor
  · intro inc g fs
    unfold calculate_capital_gains_tax stdDeduction
    exact stackTax_eq_spec _ _ _
  · intro g h0 h47
    have hto : max 0 ((0 : ℚ) - 14600) = 0 := by norm_num
    show stackTax (max 0 ((0:ℚ) - 14600)) (max 0 ((0:ℚ) - 14600) + g) CAP_GAINS_single = 0
    rw [hto, zero_add]
    show (if max 0 0 < stackSegEnd g [((47025 : ℚ), (15/100 : ℚ)), ((518900 : ℚ), (20/100 : ℚ))]
        then (stackSegEnd g [((47025 : ℚ), (15/100 : ℚ)), ((518900 : ℚ), (20/100 : ℚ))] - max 0 0) * 0 else 0) +
      ((if max 0 47025 < stackSegEnd g [((518900 : ℚ), (20/100 : ℚ))]
        then (stackSegEnd g [((518900 : ℚ), (20/100 : ℚ))] - max 0 47025) * (15/100) else 0) +
      ((if max 0 518900 < stackSegEnd g []
        then (stackSegEnd g [] - max 0 518900) * (20/100) else 0) + 0)) = 0
    rw [stackSegEnd, stackSegEnd, stackSegEnd]
    have e1 : (if max (0:ℚ) 0 < min g 47025 then (min g 47025 - max 0 0) * 0 else 0) = 0 := by
      split_ifs <;> simp
    have e2 : ¬ max (0:ℚ) 47025 < min g 518900 := by
      rw [not_lt]
      refine le_trans (min_le_left g 518900) ?_
      calc g ≤ 47025 := h47
        _ = max (0:ℚ) 47025 := by norm_num
    have e3 : ¬ max (0:ℚ) 518900 < g := by
      rw [not_lt]
      calc g ≤ 47025 := h47
        _ ≤ max (0:ℚ) 518900 := by norm_num
    rw [e1, if_neg e2, if_neg e3]
    norm_num

/-- Witness for C6 at concrete inputs. -/
theorem cap_gains_stacking_and_zero_bracket_witness :
    calculate_capital_gains_tax 0 30000 "single" = 0 ∧
      calculate_capital_gains_tax 85000 20000 "single" =
        stackSpecTax (max 0 ((85000 : ℚ) - stdDeduction "single"))
          (max 0 ((85000 : ℚ) - stdDeduction "single") + 20000)
          ((CAP_GAINS_BRACKETS_2024 (resolveStatus "single")).getD CAP_GAINS_single) :=
  ⟨cap_gains_stacking_and_zero_bracket.2 30000 (by norm_num) (by norm_num),
   cap_gains_stacking_and_zero_bracket.1 85000 20000 "single"⟩

/-- An unrecognized lowercased filing status resolves to single. -/
theorem resolveStatus_eq_single_of_unknown (s : String)
    (h1 : pyLower s ≠ "single") (h2 : pyLower s ≠ "married_jointly")
    (h3 : pyLower s ≠ "head_household") : resolveStatus s = "single" := by
  unfold resolveStatus STANDARD_DEDUCTION_2024
  rw [if_neg h1, if_neg h2, if_neg h3]
  simp

/-- C7: for every filing-status string whose lowercasing is not one of the
recognized statuses, the three tax functions return exactly the value they
return for single; for every risk-profile string whose lowercasing is not
recognized, run_simulation uses the moderate parameters (0.07, 0.12).
All these functions are total, so no input fails. -/
theorem unknown_category_defaults :
    (∀ s : String, pyLower s ≠ "single" → pyLower s ≠ "married_jointly" →
      pyLower s ≠ "head_household" →
      (∀ inc : ℚ, calculate_federal_income_tax inc s = calculate_federal_income_tax inc "single") ∧
      (∀ inc g : ℚ, calculate_capital_gains_tax inc g s = calculate_capital_gains_tax inc g "single") ∧
      (∀ inc : ℚ, get_marginal_rate inc s = get_marginal_rate inc "single")) ∧
    (∀ r : String, pyLower r ≠ "conservative" → pyLower r ≠ "moderate" →
      pyLower r ≠ "aggressive" → mcProfiles r = (7/100, 12/100)) := by
  constructor
  · intro s h1 h2 h3
    have hs : resolveStatus s = "single" := resolveStatus_eq_single_of_unknown s h1 h2 h3
    refine ⟨fun inc => ?_, fun inc g => ?_, fun inc => ?_⟩
    · unfold calculate_federal_income_tax
      rw [hs, resolveStatus_single]
    · unfold calculate_capital_gains_tax
      rw [hs, resolveStatus_single]
    · unfold get_marginal_rate
      rw [hs, resolveStatus_single]
  · intro r h1 h2 h3
    unfold mcProfiles
    rw [if_neg h1, if_neg h2, if_neg h3]

/-- Witness for C7 at concrete unrecognized strings. -/
theorem unknown_category_defaults_witness :
    calculate_federal_income_tax 50000 "Nonsense" = calculate_federal_income_tax 50000 "single" ∧
      mcProfiles "growth" = (7/100, 12/100) :=
  ⟨(unknown_category_defaults.1 "Nonsense" (by decide) (by decide) (by decide)).1 50000,
   unknown_category_defaults.2 "growth" (by decide) (by decide) (by decide)⟩

/-- C9: head_household is recognized by the standard-deduction table (21900,
so it is not defaulted to single), but TAX_BRACKETS_2024 and
CAP_GAINS_BRACKETS_2024 have no head_household entry, so both tax functions
fall back to the single bracket tables while keeping the 21900 deduction; the
result differs from the full single treatment (shown at income 20000). -/
theorem head_household_hybrid :
    TAX_BRACKETS_2024 "head_household" = none ∧
    CAP_GAINS_BRACKETS_2024 "head_household" = none ∧
    STANDARD_DEDUCTION_2024 "head_household" = some 21900 ∧
    resolveStatus "head_household" = "head_household" ∧
    (∀ inc : ℚ, calculate_federal_income_tax inc "head_household" =
      bracketTax (max 0 (inc - 21900)) TAX_BRACKETS_single) ∧
    (∀ inc g : ℚ, calculate_capital_gains_tax inc g "head_household" =
      stackTax (max 0 (inc - 21900)) (max 0 (inc - 21900) + g) CAP_GAINS_single) ∧
    calculate_federal_income_tax 20000 "head_household" = 0 ∧
    calculate_federal_income_tax 20000 "single" = 540 := by
  refine ⟨rfl, rfl, rfl, rfl, fun inc => rfl, fun inc g => rfl, ?_, ?_⟩
  · show bracketTax (max 0 ((20000 : ℚ) - 21900)) TAX_BRACKETS_single = 0
    have h : max 0 ((20000 : ℚ) - 21900) = 0 := by norm_num
    rw [h, TAX_BRACKETS_single, bracketTax, if_neg (lt_irrefl 0)]
  · show bracketTax (max 0 ((20000 : ℚ) - 14600)) TAX_BRACKETS_single = 540
    norm_num [TAX_BRACKETS_single, bracketTax, bracketTop]

/-! ### Monte Carlo balance matrix (C3) -/

/-- A concrete return sequence with a single sub-(-100 percent) draw in
year 1 and zero returns afterwards. -/
def mcRetEx : ℕ → ℚ := fun t => if t = 1 then -2 else 0

/-- C3 counterexample: with contribution 10, years_to_retirement 2 and the
crash return in year 1, the run is clamped to 0 at year 1 but the following
accumulation-year update adds the contribution again, so the balance at year
2 is 10, not 0 — a ruined run does recover during accumulation. -/
theorem mc_zero_not_absorbing_counterexample :
    mcBalance 100 10 0 2 mcRetEx 1 = 0 ∧
      mcBalance 100 10 0 2 mcRetEx 2 = 10 ∧ (10 : ℚ) ≠ 0 := by
  have h1 : mcBalance 100 10 0 2 mcRetEx 1 = 0 := by
    show max (mcBalance 100 10 0 2 mcRetEx 0 * (1 + mcRetEx 1) + 10) 0 = 0
    show max ((100 : ℚ) * (1 + mcRetEx 1) + 10) 0 = 0
    rw [show mcRetEx 1 = -2 from rfl]
    norm_num
  refine ⟨h1, ?_, by norm_num⟩
  show max (mcBalance 100 10 0 2 mcRetEx 1 * (1 + mcRetEx 2) + 10) 0 = 10
  rw [h1, show mcRetEx 2 = 0 from rfl]
  norm_num

/-- C3 amended: every matrix entry from year 1 on is non-negative (and the
year-0 column as well whenever current_balance is non-negative), and zero is
absorbing from any year at or after years_to_retirement onward when the
annual withdrawal is non-negative; during accumulation a positive
contribution revives a clamped run, as the counterexample shows. -/
theorem mc_balances_nonneg_and_absorbing_after_retirement :
    (∀ (cb c w : ℚ) (ytr : ℕ) (ret : ℕ → ℚ) (t : ℕ), 1 ≤ t →
      0 ≤ mcBalance cb c w ytr ret t) ∧
    (∀ (cb c w : ℚ) (ytr : ℕ) (ret : ℕ → ℚ), 0 ≤ cb → ∀ t, 0 ≤ mcBalance cb c w ytr ret t) ∧
    (∀ (cb c w : ℚ) (ytr : ℕ) (ret : ℕ → ℚ) (t : ℕ), 0 ≤ w → ytr ≤ t →
      mcBalance cb c w ytr ret t = 0 → ∀ s, t ≤ s → mcBalance cb c w ytr ret s = 0) := by
  refine ⟨?_, ?_, ?_⟩
  · intro cb c w ytr ret t ht
    cases t with
    | zero => omega
    | succ k => exact le_max_right _ 0
  · intro cb c w ytr ret hcb t
    cases t with
    | zero => exact hcb
    | succ k => exact le_max_right _ 0
  · intro cb c w ytr ret t hw hytr h0 s hts
    induction s, hts using Nat.le_induction with
    | base => exact h0
    | succ n hn ih =>
      show max (if n + 1 ≤ ytr then mcBalance cb c w ytr ret n * (1 + ret (n + 1)) + c
          else mcBalance cb c w ytr ret n * (1 + ret (n + 1)) - w) 0 = 0
      rw [if_neg (by omega), ih, zero_mul, zero_sub]
      exact max_eq_right (neg_nonpos.mpr hw)

/-- Witness for C3 amended at concrete inputs. -/
theorem mc_balances_nonneg_and_absorbing_witness :
    0 ≤ mcBalance 100 10 0 2 mcRetEx 1 ∧
      0 ≤ mcBalance 5 1 1 1 mcRetEx 2 ∧
      mcBalance 0 0 5 0 mcRetEx 3 = 0 :=
  ⟨mc_balances_nonneg_and_absorbing_after_retirement.1 100 10 0 2 mcRetEx 1 (by norm_num),
   mc_balances_nonneg_and_absorbing_after_retirement.2.1 5 1 1 1 mcRetEx (by norm_num) 2,
   mc_balances_nonneg_and_absorbing_after_retirement.2.2 0 0 5 0 mcRetEx 0 (by norm_num)
     (by norm_num) rfl 3 (by norm_num)⟩

/-! ### The deterministic projection engine
RetirementService.calculate_financial_projections. The resolved plan
configuration (the output of _resolve_inputs) and the user profile fields
read through get_d are the inputs; python floats are exact rationals. -/

/-- The resolved plan configuration consumed by the projection loop
(the dictionary produced by RetirementService._resolve_inputs). -/
structure PlanInputs where
  inflationRate : ℚ
  portfolioGrowthRate : ℚ
  bondGrowthRate : ℚ
  retirementAge : ℕ
  startAge : ℕ
  endAge : ℕ
  socialSecurityStartAge : ℕ
  estimatedSocialSecurityBenefit : ℚ
  pensionIncome : ℚ
  desiredAnnualRetirementSpending : ℚ
  spouseStartAge : Option ℕ
  spouseRetirementAge : Option ℕ
  spouseSocialSecurityStartAge : ℕ
  spouseEstimatedSocialSecurityBenefit : ℚ
  spousePensionIncome : ℚ
  c401k : ℚ
  cIRA : ℚ
  cRoth : ℚ
  cHSA : ℚ
  cInvest : ℚ
  s401k : ℚ
  sIRA : ℚ
  sRoth : ℚ
  sHSA : ℚ

/-- The user-profile fields read by calculate_financial_projections through
get_d (absent fields are 0, matching the default of get_d). -/
structure UserProfile where
  currentIncome : ℚ
  spouseCurrentIncome : ℚ
  otherIncome1 : ℚ
  otherIncome2 : ℚ
  spouseCurrentAge : ℚ
  totalMonthlyExpenses : ℚ
  a401k : ℚ
  aIRA : ℚ
  aRoth : ℚ
  aHSA : ℚ
  sB401k : ℚ
  sBIRA : ℚ
  sBRoth : ℚ
  sBHSA : ℚ
  investmentBalance : ℚ
  savingsBalance : ℚ
  checkingBalance : ℚ
  mortgageBalance : ℚ
  creditCardDebt : ℚ
  studentLoanDebt : ℚ
  otherDebt : ℚ

/-- The mutable per-year balances threaded through the projection loop. -/
structure SimState where
  userBal401k : ℚ
  spouseBal401k : ℚ
  userBalRoth : ℚ
  spouseBalRoth : ℚ
  userBalHsa : ℚ
  spouseBalHsa : ℚ
  balBrokerage : ℚ
  balSavings : ℚ
  balMortgage : ℚ
  balOtherDebt : ℚ
  cumulativeTax : ℚ

/-- One AnnualProjection output record (the calendar year field, which only
adds the constant datetime.now().year, is omitted; breakdown entries are
(name, type, balance) triples). -/
structure Projection where
  age : ℕ
  grossIncome : ℚ
  netIncome : ℚ
  totalExpenses : ℚ
  totalAssets : ℚ
  totalLiabilities : ℚ
  netWorth : ℚ
  taxesPaid : ℚ
  cumulativeTax : ℚ
  assets : List (String × String × ℚ)
  liabilities : List (String × String × ℚ)

/-- Python truthiness of an optional integer (None and 0 are falsy). -/
def truthyOpt : Option ℕ → Bool
  | none => false
  | some n => n != 0

/-- Filing status heuristic: married_jointly when spouseStartAge resolved
to a non-None value, else single. -/
def filingStatus (inp : PlanInputs) : String :=
  if inp.spouseStartAge.isSome then "married_jointly" else "single"

/-- Initial balances (year-0 state) derived from the user profile. -/
def initState (u : UserProfile) : SimState where
  userBal401k := u.a401k + u.aIRA
  spouseBal401k := u.sB401k + u.sBIRA
  userBalRoth := u.aRoth
  spouseBalRoth := u.sBRoth
  userBalHsa := u.aHSA
  spouseBalHsa := u.sBHSA
  balBrokerage := u.investmentBalance
  balSavings := u.savingsBalance + u.checkingBalance
  balMortgage := u.mortgageBalance
  balOtherDebt := u.creditCardDebt + u.studentLoanDebt + u.otherDebt
  cumulativeTax := 0

/-- Everything computed by the income / expense / RMD / estimated-tax part
of a simulated year (steps 1-5 of the year-1+ branch), before withdrawals. -/
structure YearCtx where
  inflator : ℚ
  isRetired : Bool
  incomeSalary : ℚ
  incomeSpouseSalary : ℚ
  incomeSS : ℚ
  incomeSpouseSS : ℚ
  incomePension : ℚ
  incomeOther : ℚ
  totalGuaranteedIncome : ℚ
  annualExpenses : ℚ
  mortgagePayment : ℚ
  balMortgageNext : ℚ
  rmdAmount : ℚ
  taxableSS : ℚ
  ordinaryIncomeBase : ℚ
  estFedTax : ℚ
  totalInflow : ℚ
  requiredOutflow : ℚ
  deficit : ℚ
  surplus : ℚ
  marginalRate : ℚ

/-- Steps 1-5 of a year-1+ iteration of the projection loop: inflation,
income sources, required expenses and mortgage payment, RMD, the estimated
tax, the cash-flow gap (deficit / surplus) and the grossing-up marginal rate. -/
def yearCtx (inp : PlanInputs) (u : UserProfile) (st : SimState) (age : ℕ) : YearCtx :=
  let n := age - inp.startAge
  let inflator := (1 + inp.inflationRate) ^ n
  let isRetired : Bool := inp.retirementAge ≤ age
  let incomeSalary := if isRetired then 0 else u.currentIncome * inflator
  let incomeSpouseSalary := if isRetired then 0 else u.spouseCurrentIncome * inflator
  let incomeSS := if inp.socialSecurityStartAge ≤ age
    then inp.estimatedSocialSecurityBenefit * inflator else 0
  let spouseAgeNow : ℚ := if u.spouseCurrentAge ≠ 0 then u.spouseCurrentAge + n else (age : ℚ)
  let incomeSpouseSS := if u.spouseCurrentAge ≠ 0 ∧
      (inp.spouseSocialSecurityStartAge : ℚ) ≤ spouseAgeNow
    then inp.spouseEstimatedSocialSecurityBenefit * inflator else 0
  let incomePension := if isRetired ∨ 65 ≤ age
    then inp.pensionIncome * inflator + inp.spousePensionIncome * inflator else 0
  let incomeOther := u.otherIncome1 * inflator + u.otherIncome2 * inflator
  let totalGuaranteedIncome := incomeSalary + incomeSpouseSalary + incomeSS +
    incomeSpouseSS + incomePension + incomeOther
  let baseMonthly := if u.totalMonthlyExpenses = 0 then 4000 else u.totalMonthlyExpenses
  let annualExpenses0 := baseMonthly * 12 * inflator
  let annualExpenses1 := if isRetired ∧ 0 < inp.desiredAnnualRetirementSpending
    then inp.desiredAnnualRetirementSpending * inflator else annualExpenses0
  let mortgagePayment : ℚ := if 0 < st.balMortgage then 28000 else 0
  let annualExpenses := if 0 < st.balMortgage then annualExpenses1 + 28000 else annualExpenses1
  let balMortgageNext := if 0 < st.balMortgage
    then max 0 (st.balMortgage - 28000 * (6/10)) else st.balMortgage
  let bal401k := st.userBal401k + st.spouseBal401k
  let rmdAmount := if 0 < bal401k ∧ 0 < get_rmd_divisor (age : ℤ)
    then bal401k / get_rmd_divisor (age : ℤ) else 0
  let taxableSS := (incomeSS + incomeSpouseSS) * (85/100)
  let ordinaryIncomeBase := incomeSalary + incomeSpouseSalary + incomePension +
    incomeOther + rmdAmount + taxableSS
  let estFedTax := calculate_federal_income_tax ordinaryIncomeBase (filingStatus inp)
  let totalInflow := totalGuaranteedIncome + rmdAmount
  let requiredOutflow := annualExpenses + estFedTax
  let deficit := max 0 (requiredOutflow - totalInflow)
  let surplus := max 0 (totalInflow - requiredOutflow)
  let mr0 := get_marginal_rate ordinaryIncomeBase (filingStatus inp)
  let marginalRate := if mr0 = 0 then 1/10 else mr0
  { inflator := inflator, isRetired := isRetired,
    incomeSalary := incomeSalary, incomeSpouseSalary := incomeSpouseSalary,
    incomeSS := incomeSS, incomeSpouseSS := incomeSpouseSS,
    incomePension := incomePension, incomeOther := incomeOther,
    totalGuaranteedIncome := totalGuaranteedIncome,
    annualExpenses := annualExpenses, mortgagePayment := mortgagePayment,
    balMortgageNext := balMortgageNext, rmdAmount := rmdAmount,
    taxableSS := taxableSS, ordinaryIncomeBase := ordinaryIncomeBase,
    estFedTax := estFedTax, totalInflow := totalInflow,
    requiredOutflow := requiredOutflow, deficit := deficit, surplus := surplus,
    marginalRate := marginalRate }

/-- The estimated capital-gains rate of withdrawal step A (0.15 default,
0.20 above 450000 ordinary income, 0 below 40000). -/
def estCapRate (base : ℚ) : ℚ :=
  if base < 40000 then 0 else if 450000 < base then 20/100 else 15/100

/-- Result of withdrawal step A (brokerage). -/
structure StepARes where
  balBrokerage : ℚ
  wdTaxable : ℚ
  remaining : ℚ

/-- Withdrawal step A: gross-up the deficit by the estimated capital-gains
rate, take at most the brokerage balance, and reduce the deficit by the net
proceeds after the exact capital-gains tax on the take. -/
def stepA (fs : String) (deficit ordinaryBase balBrokerage : ℚ) : StepARes :=
  if 0 < deficit ∧ 0 < balBrokerage then
    let rate := estCapRate ordinaryBase
    let neededGross := deficit / (1 - rate)
    let take := min neededGross balBrokerage
    let taxOnWd := calculate_capital_gains_tax ordinaryBase take fs
    { balBrokerage := balBrokerage - take, wdTaxable := take,
      remaining := deficit - (take - taxOnWd) }
  else
    { balBrokerage := balBrokerage, wdTaxable := 0, remaining := deficit }

/-- Result of withdrawal step B (pre-tax 401k/IRA, net of the RMD). -/
structure StepBRes where
  wdPretax : ℚ
  remaining : ℚ
  ordinaryBase : ℚ

/-- Withdrawal step B: gross-up by the marginal ordinary rate, take at most
the post-RMD pre-tax balance, charge the incremental federal tax. -/
def stepB (fs : String) (remaining ordinaryBase estFedTax marginalRate bal401kAfterRmd : ℚ) :
    StepBRes :=
  if 1/10 < remaining ∧ 0 < bal401kAfterRmd then
    let neededGross := remaining / (1 - marginalRate)
    let take := min neededGross bal401kAfterRmd
    let newTax := calculate_federal_income_tax (ordinaryBase + take) fs
    let taxOnWd := newTax - estFedTax
    { wdPretax := take, remaining := remaining - (take - taxOnWd),
      ordinaryBase := ordinaryBase + take }
  else
    { wdPretax := 0, remaining := remaining, ordinaryBase := ordinaryBase }

/-- Result of withdrawal step C (Roth before HSA, tax free). -/
structure StepCRes where
  wdRoth : ℚ
  balRoth : ℚ
  balHsa : ℚ

/-- Withdrawal step C: take the rest from Roth first, then HSA, no tax. -/
def stepC (remaining balRoth balHsa : ℚ) : StepCRes :=
  if 1/10 < remaining ∧ 0 < balRoth + balHsa then
    let take := min remaining (balRoth + balHsa)
    if take ≤ balRoth then
      { wdRoth := take, balRoth := balRoth - take, balHsa := balHsa }
    else
      { wdRoth := take, balRoth := 0, balHsa := max 0 (balHsa - (take - balRoth)) }
  else
    { wdRoth := 0, balRoth := balRoth, balHsa := balHsa }

/-- Proportional resync of a user/spouse pair against a post-withdrawal
combined total (remaining_ratio scaling); a zero previous total resets both
shares to 0. The clamp flag reproduces the extra negative-ratio guard that
the source applies to the 401k pair only. -/
def syncPair (postTotal userB spouseB : ℚ) (clampNeg : Bool) : ℚ × ℚ :=
  if 0 < userB + spouseB then
    let sc := postTotal / (userB + spouseB)
    let sc := if clampNeg ∧ sc < 0 then 0 else sc
    (userB * sc, spouseB * sc)
  else (0, 0)

/-- Spouse retirement test of the contribution block: both resolved spouse
ages truthy and spouse age this year at or past the spouse retirement age. -/
def spouseIsRetired (inp : PlanInputs) (n : ℕ) : Bool :=
  if truthyOpt inp.spouseRetirementAge ∧ truthyOpt inp.spouseStartAge then
    inp.spouseRetirementAge.getD 0 ≤ inp.spouseStartAge.getD 0 + n
  else false

/-- Withdrawal step A of the year as a function of the loop state. -/
def wdStepA (inp : PlanInputs) (u : UserProfile) (st : SimState) (age : ℕ) : StepARes :=
  stepA (filingStatus inp) (yearCtx inp u st age).deficit
    (yearCtx inp u st age).ordinaryIncomeBase st.balBrokerage

/-- bal_401k_after_rmd of the year. -/
def after401kRmd (inp : PlanInputs) (u : UserProfile) (st : SimState) (age : ℕ) : ℚ :=
  max 0 (st.userBal401k + st.spouseBal401k - (yearCtx inp u st age).rmdAmount)

/-- Withdrawal step B of the year as a function of the loop state. -/
def wdStepB (inp : PlanInputs) (u : UserProfile) (st : SimState) (age : ℕ) : StepBRes :=
  stepB (filingStatus inp) (wdStepA inp u st age).remaining
    (yearCtx inp u st age).ordinaryIncomeBase (yearCtx inp u st age).estFedTax
    (yearCtx inp u st age).marginalRate (after401kRmd inp u st age)

/-- Withdrawal step C of the year as a function of the loop state. -/
def wdStepC (inp : PlanInputs) (u : UserProfile) (st : SimState) (age : ℕ) : StepCRes :=
  stepC (wdStepB inp u st age).remaining (st.userBalRoth + st.spouseBalRoth)
    (st.userBalHsa + st.spouseBalHsa)

/-- bal_401k_post_wd of the year (floored combined balance after RMD and
pre-tax withdrawal). -/
def post401k (inp : PlanInputs) (u : UserProfile) (st : SimState) (age : ℕ) : ℚ :=
  max 0 (st.userBal401k + st.spouseBal401k - (yearCtx inp u st age).rmdAmount -
    (wdStepB inp u st age).wdPretax)

/-- 401k sub-balance resync of the year (with the negative-ratio clamp). -/
def sync401 (inp : PlanInputs) (u : UserProfile) (st : SimState) (age : ℕ) : ℚ × ℚ :=
  syncPair (post401k inp u st age) st.userBal401k st.spouseBal401k true

/-- Roth sub-balance resync of the year. -/
def syncRoth (inp : PlanInputs) (u : UserProfile) (st : SimState) (age : ℕ) : ℚ × ℚ :=
  syncPair (wdStepC inp u st age).balRoth st.userBalRoth st.spouseBalRoth false

/-- HSA sub-balance resync of the year. -/
def syncHsa (inp : PlanInputs) (u : UserProfile) (st : SimState) (age : ℕ) : ℚ × ℚ :=
  syncPair (wdStepC inp u st age).balHsa st.userBalHsa st.spouseBalHsa false

/-- final_ordinary_income of the year (exact recomputation inputs). -/
def finalOrdinary (inp : PlanInputs) (u : UserProfile) (st : SimState) (age : ℕ) : ℚ :=
  (yearCtx inp u st age).incomeSalary + (yearCtx inp u st age).incomeSpouseSalary +
    (yearCtx inp u st age).incomePension + (yearCtx inp u st age).incomeOther +
    (yearCtx inp u st age).rmdAmount + (yearCtx inp u st age).taxableSS +
    (wdStepB inp u st age).wdPretax

/-- total_tax_paid of the year: exact federal tax plus exact capital-gains
tax on the brokerage withdrawal. -/
def totalTaxPaid (inp : PlanInputs) (u : UserProfile) (st : SimState) (age : ℕ) : ℚ :=
  calculate_federal_income_tax (finalOrdinary inp u st age) (filingStatus inp) +
    calculate_capital_gains_tax (finalOrdinary inp u st age) (wdStepA inp u st age).wdTaxable
      (filingStatus inp)

/-- One year-1+ iteration of the projection loop (steps 1-8): income,
expenses, RMD, estimated tax, the three withdrawal steps, exact tax
recomputation, sub-balance resync, contributions, growth and the output
record. Returns the end-of-year state and the AnnualProjection record. -/
def stepYear (inp : PlanInputs) (u : UserProfile) (st : SimState) (age : ℕ) :
    SimState × Projection :=
  let ctx := yearCtx inp u st age
  let a := wdStepA inp u st age
  let b := wdStepB inp u st age
  let c := wdStepC inp u st age
  let tax := totalTaxPaid inp u st age
  let p401 := sync401 inp u st age
  let pRoth := syncRoth inp u st age
  let pHsa := syncHsa inp u st age
  let u401k2 := if ctx.isRetired then p401.1 else p401.1 + inp.c401k + inp.cIRA
  let uRoth2 := if ctx.isRetired then pRoth.1 else pRoth.1 + inp.cRoth
  let uHsa2 := if ctx.isRetired then pHsa.1 else pHsa.1 + inp.cHSA
  let brokerage2 := if ctx.isRetired then a.balBrokerage else a.balBrokerage + inp.cInvest
  let spouseContrib : Bool :=
    !(spouseIsRetired inp (age - inp.startAge)) && truthyOpt inp.spouseStartAge
  let s401k2 := if spouseContrib then p401.2 + inp.s401k + inp.sIRA else p401.2
  let sRoth2 := if spouseContrib then pRoth.2 + inp.sRoth else pRoth.2
  let sHsa2 := if spouseContrib then pHsa.2 + inp.sHSA else pHsa.2
  let g := 1 + inp.portfolioGrowthRate
  let u401k3 := u401k2 * g
  let s401k3 := s401k2 * g
  let uRoth3 := uRoth2 * g
  let sRoth3 := sRoth2 * g
  let uHsa3 := uHsa2 * g
  let sHsa3 := sHsa2 * g
  let brokerage3 := brokerage2 * g
  let savings3 := st.balSavings * (1 + inp.bondGrowthRate)
  let bal401kF := u401k3 + s401k3
  let balRothF := uRoth3 + sRoth3
  let balHsaF := uHsa3 + sHsa3
  let totalAssets := bal401kF + balRothF + brokerage3 + savings3 + balHsaF
  let totalLiabilities := ctx.balMortgageNext + st.balOtherDebt
  let grossIncome := ctx.totalGuaranteedIncome + ctx.rmdAmount + a.wdTaxable +
    b.wdPretax + c.wdRoth
  let newState : SimState :=
    { userBal401k := u401k3, spouseBal401k := s401k3,
      userBalRoth := uRoth3, spouseBalRoth := sRoth3,
      userBalHsa := uHsa3, spouseBalHsa := sHsa3,
      balBrokerage := brokerage3, balSavings := savings3,
      balMortgage := ctx.balMortgageNext, balOtherDebt := st.balOtherDebt,
      cumulativeTax := st.cumulativeTax + tax }
  let record : Projection :=
    { age := age,
      grossIncome := grossIncome,
      netIncome := grossIncome - tax,
      totalExpenses := ctx.annualExpenses + tax,
      totalAssets := totalAssets,
      totalLiabilities := totalLiabilities,
      netWorth := totalAssets - totalLiabilities,
      taxesPaid := tax,
      cumulativeTax := st.cumulativeTax + tax,
      assets := [("401(k) / IRA", "retirement", bal401kF),
                 ("Roth IRA", "retirement", balRothF),
                 ("Brokerage", "investment", brokerage3),
                 ("Savings", "cash", savings3),
                 ("HSA", "hsa", balHsaF)],
      liabilities := if 0 < ctx.balMortgageNext
        then [("Mortgage", "mortgage", ctx.balMortgageNext)] else [] }
  (newState, record)

/-- The year-0 snapshot record (pass-through of current state, no
calculations; netIncome uses the 0.8 placeholder). -/
def year0Record (u : UserProfile) (startAge : ℕ) : Projection :=
  let st := initState u
  let bal401k := st.userBal401k + st.spouseBal401k
  let balRoth := st.userBalRoth + st.spouseBalRoth
  let balHsa := st.userBalHsa + st.spouseBalHsa
  let totalAssets := bal401k + balRoth + st.balBrokerage + st.balSavings + balHsa
  let totalLiabilities := st.balMortgage + st.balOtherDebt
  let grossIncome := u.currentIncome + u.spouseCurrentIncome
  { age := startAge,
    grossIncome := grossIncome,
    netIncome := grossIncome * (8/10),
    totalExpenses := u.totalMonthlyExpenses * 12,
    totalAssets := totalAssets,
    totalLiabilities := totalLiabilities,
    netWorth := totalAssets - totalLiabilities,
    taxesPaid := 0,
    cumulativeTax := 0,
    assets := [("401(k) / IRA", "retirement", bal401k),
               ("Roth IRA", "retirement", balRoth),
               ("Brokerage", "investment", st.balBrokerage),
               ("Savings", "cash", st.balSavings),
               ("HSA", "hsa", balHsa)],
    liabilities :=
      (if 0 < st.balMortgage then [("Mortgage", "mortgage", st.balMortgage)] else []) ++
      (if 0 < st.balOtherDebt then [("Other Debts", "debt", st.balOtherDebt)] else []) }

/-- The year-1+ part of the loop over the given list of ages, threading the
state and collecting one record per age. -/
def runYears (inp : PlanInputs) (u : UserProfile) : SimState → List ℕ → SimState × List Projection
  | st, [] => (st, [])
  | st, age :: rest =>
    let sp := stepYear inp u st age
    let tail := runYears inp u sp.1 rest
    (tail.1, sp.2 :: tail.2)

/-- The ages simulated after year 0: startAge+1 up to endAge. -/
def yearList (inp : PlanInputs) : List ℕ :=
  (List.range (inp.endAge - inp.startAge)).map (fun i => inp.startAge + 1 + i)

/-- RetirementService.calculate_financial_projections: the year-0 snapshot
followed by one record per later age (empty when endAge < startAge, matching
the empty python range). -/
def calculate_financial_projections (inp : PlanInputs) (u : UserProfile) : List Projection :=
  if inp.startAge ≤ inp.endAge then
    year0Record u inp.startAge :: (runYears inp u (initState u) (yearList inp)).2
  else []

/-! ### Field equations of stepYear -/

theorem stepYear_userBal401k (inp : PlanInputs) (u : UserProfile) (st : SimState) (age : ℕ) :
    (stepYear inp u st age).1.userBal401k =
      (if (yearCtx inp u st age).isRetired then (sync401 inp u st age).1
       else (sync401 inp u st age).1 + inp.c401k + inp.cIRA) *
        (1 + inp.portfolioGrowthRate) := rfl

theorem stepYear_spouseBal401k (inp : PlanInputs) (u : UserProfile) (st : SimState) (age : ℕ) :
    (stepYear inp u st age).1.spouseBal401k =
      (if !(spouseIsRetired inp (age - inp.startAge)) && truthyOpt inp.spouseStartAge
       then (sync401 inp u st age).2 + inp.s401k + inp.sIRA
       else (sync401 inp u st age).2) * (1 + inp.portfolioGrowthRate) := rfl

theorem stepYear_userBalRoth (inp : PlanInputs) (u : UserProfile) (st : SimState) (age : ℕ) :
    (stepYear inp u st age).1.userBalRoth =
      (if (yearCtx inp u st age).isRetired then (syncRoth inp u st age).1
       else (syncRoth inp u st age).1 + inp.cRoth) * (1 + inp.portfolioGrowthRate) := rfl

theorem stepYear_spouseBalRoth (inp : PlanInputs) (u : UserProfile) (st : SimState) (age : ℕ) :
    (stepYear inp u st age).1.spouseBalRoth =
      (if !(spouseIsRetired inp (age - inp.startAge)) && truthyOpt inp.spouseStartAge
       then (syncRoth inp u st age).2 + inp.sRoth
       else (syncRoth inp u st age).2) * (1 + inp.portfolioGrowthRate) := rfl

theorem stepYear_userBalHsa (inp : PlanInputs) (u : UserProfile) (st : SimState) (age : ℕ) :
    (stepYear inp u st age).1.userBalHsa =
      (if (yearCtx inp u st age).isRetired then (syncHsa inp u st age).1
       else (syncHsa inp u st age).1 + inp.cHSA) * (1 + inp.portfolioGrowthRate) := rfl

theorem stepYear_spouseBalHsa (inp : PlanInputs) (u : UserProfile) (st : SimState) (age : ℕ) :
    (stepYear inp u st age).1.spouseBalHsa =
      (if !(spouseIsRetired inp (age - inp.startAge)) && truthyOpt inp.spouseStartAge
       then (syncHsa inp u st age).2 + inp.sHSA
       else (syncHsa inp u st age).2) * (1 + inp.portfolioGrowthRate) := rfl

theorem stepYear_balBrokerage (inp : PlanInputs) (u : UserProfile) (st : SimState) (age : ℕ) :
    (stepYear inp u st age).1.balBrokerage =
      (if (yearCtx inp u st age).isRetired then (wdStepA inp u st age).balBrokerage
       else (wdStepA inp u st age).balBrokerage + inp.cInvest) *
        (1 + inp.portfolioGrowthRate) := rfl

theorem stepYear_balSavings (inp : PlanInputs) (u : UserProfile) (st : SimState) (age : ℕ) :
    (stepYear inp u st age).1.balSavings = st.balSavings * (1 + inp.bondGrowthRate) := rfl

theorem stepYear_balMortgage (inp : PlanInputs) (u : UserProfile) (st : SimState) (age : ℕ) :
    (stepYear inp u st age).1.balMortgage = (yearCtx inp u st age).balMortgageNext := rfl

theorem stepYear_balOtherDebt (inp : PlanInputs) (u : UserProfile) (st : SimState) (age : ℕ) :
    (stepYear inp u st age).1.balOtherDebt = st.balOtherDebt := rfl

theorem stepYear_assets (inp : PlanInputs) (u : UserProfile) (st : SimState) (age : ℕ) :
    (stepYear inp u st age).2.assets =
      [("401(k) / IRA", "retirement",
          (stepYear inp u st age).1.userBal401k + (stepYear inp u st age).1.spouseBal401k),
       ("Roth IRA", "retirement",
          (stepYear inp u st age).1.userBalRoth + (stepYear inp u st age).1.spouseBalRoth),
       ("Brokerage", "investment", (stepYear inp u st age).1.balBrokerage),
       ("Savings", "cash", (stepYear inp u st age).1.balSavings),
       ("HSA", "hsa",
          (stepYear inp u st age).1.userBalHsa + (stepYear inp u st age).1.spouseBalHsa)] := rfl

theorem stepYear_liabilities (inp : PlanInputs) (u : UserProfile) (st : SimState) (age : ℕ) :
    (stepYear inp u st age).2.liabilities =
      if 0 < (stepYear inp u st age).1.balMortgage
      then [("Mortgage", "mortgage", (stepYear inp u st age).1.balMortgage)] else [] := rfl

theorem stepYear_totalLiabilities (inp : PlanInputs) (u : UserProfile) (st : SimState) (age : ℕ) :
    (stepYear inp u st age).2.totalLiabilities =
      (stepYear inp u st age).1.balMortgage + st.balOtherDebt := rfl

theorem stepYear_totalAssets (inp : PlanInputs) (u : UserProfile) (st : SimState) (age : ℕ) :
    (stepYear inp u st age).2.totalAssets =
      ((stepYear inp u st age).1.userBal401k + (stepYear inp u st age).1.spouseBal401k) +
      ((stepYear inp u st age).1.userBalRoth + (stepYear inp u st age).1.spouseBalRoth) +
      (stepYear inp u st age).1.balBrokerage + (stepYear inp u st age).1.balSavings +
      ((stepYear inp u st age).1.userBalHsa + (stepYear inp u st age).1.spouseBalHsa) := rfl

/-! ### Non-negativity invariant (C2) -/

/-- All balance and liability fields of the loop state are non-negative. -/
def StateNonneg (st : SimState) : Prop :=
  0 ≤ st.userBal401k ∧ 0 ≤ st.spouseBal401k ∧ 0 ≤ st.userBalRoth ∧ 0 ≤ st.spouseBalRoth ∧
  0 ≤ st.userBalHsa ∧ 0 ≤ st.spouseBalHsa ∧ 0 ≤ st.balBrokerage ∧ 0 ≤ st.balSavings ∧
  0 ≤ st.balMortgage ∧ 0 ≤ st.balOtherDebt

/-- All configured contribution amounts are non-negative. -/
def ContribNonneg (inp : PlanInputs) : Prop :=
  0 ≤ inp.c401k ∧ 0 ≤ inp.cIRA ∧ 0 ≤ inp.cRoth ∧ 0 ≤ inp.cHSA ∧ 0 ≤ inp.cInvest ∧
  0 ≤ inp.s401k ∧ 0 ≤ inp.sIRA ∧ 0 ≤ inp.sRoth ∧ 0 ≤ inp.sHSA

/-- Both growth factors are non-negative (rates of at least -100 percent). -/
def GrowthOK (inp : PlanInputs) : Prop :=
  0 ≤ 1 + inp.portfolioGrowthRate ∧ 0 ≤ 1 + inp.bondGrowthRate

/-- The starting balances and liabilities of the profile are non-negative. -/
def ProfileNonneg (u : UserProfile) : Prop :=
  0 ≤ u.a401k ∧ 0 ≤ u.aIRA ∧ 0 ≤ u.aRoth ∧ 0 ≤ u.aHSA ∧
  0 ≤ u.sB401k ∧ 0 ≤ u.sBIRA ∧ 0 ≤ u.sBRoth ∧ 0 ≤ u.sBHSA ∧
  0 ≤ u.investmentBalance ∧ 0 ≤ u.savingsBalance ∧ 0 ≤ u.checkingBalance ∧
  0 ≤ u.mortgageBalance ∧ 0 ≤ u.creditCardDebt ∧ 0 ≤ u.studentLoanDebt ∧ 0 ≤ u.otherDebt

/-- Every balance of an output record (asset entries and liability entries)
is non-negative. -/
def RecordOK (p : Projection) : Prop :=
  (∀ e ∈ p.assets, 0 ≤ e.2.2) ∧ (∀ e ∈ p.liabilities, 0 ≤ e.2.2)

theorem initState_nonneg (u : UserProfile) (hu : ProfileNonneg u) : StateNonneg (initState u) := by
  obtain ⟨h1, h2, h3, h4, h5, h6, h7, h8, h9, h10, h11, h12, h13, h14, h15⟩ := hu
  exact ⟨add_nonneg h1 h2, add_nonneg h5 h6, h3, h7, h4, h8, h9,
    add_nonneg h10 h11, h12, add_nonneg (add_nonneg h13 h14) h15⟩

theorem stepA_balBrokerage_nonneg (fs : String) (deficit ob bb : ℚ) (h : 0 ≤ bb) :
    0 ≤ (stepA fs deficit ob bb).balBrokerage := by
  unfold stepA
  split_ifs with hif
  · dsimp only
    have hmin : min (deficit / (1 - estCapRate ob)) bb ≤ bb := min_le_right _ _
    linarith
  · exact h

theorem stepC_balances_nonneg (rem br bh : ℚ) (hr : 0 ≤ br) (hh : 0 ≤ bh) :
    0 ≤ (stepC rem br bh).balRoth ∧ 0 ≤ (stepC rem br bh).balHsa := by
  unfold stepC
  by_cases h1 : 1/10 < rem ∧ 0 < br + bh
  · rw [if_pos h1]
    dsimp only
    by_cases h2 : min rem (br + bh) ≤ br
    · rw [if_pos h2]
      exact ⟨sub_nonneg.mpr h2, hh⟩
    · rw [if_neg h2]
      exact ⟨le_refl 0, le_max_left 0 _⟩
  · rw [if_neg h1]
    exact ⟨hr, hh⟩

theorem syncPair_nonneg (pt ub sb : ℚ) (cl : Bool) (hpt : 0 ≤ pt) (hu : 0 ≤ ub) (hs : 0 ≤ sb) :
    0 ≤ (syncPair pt ub sb cl).1 ∧ 0 ≤ (syncPair pt ub sb cl).2 := by
  unfold syncPair
  by_cases h1 : 0 < ub + sb
  · rw [if_pos h1]
    dsimp only
    by_cases h2 : cl = true ∧ pt / (ub + sb) < 0
    · rw [if_pos h2]
      constructor <;> simp
    · rw [if_neg h2]
      have hsc : 0 ≤ pt / (ub + sb) := div_nonneg hpt h1.le
      exact ⟨mul_nonneg hu hsc, mul_nonneg hs hsc⟩
  · rw [if_neg h1]
    exact ⟨le_refl 0, le_refl 0⟩

theorem yearCtx_balMortgageNext_nonneg (inp : PlanInputs) (u : UserProfile) (st : SimState)
    (age : ℕ) (hm : 0 ≤ st.balMortgage) : 0 ≤ (yearCtx inp u st age).balMortgageNext := by
  show 0 ≤ (if 0 < st.balMortgage then max 0 (st.balMortgage - 28000 * (6/10)) else st.balMortgage)
  split_ifs
  · exact le_max_left 0 _
  · exact hm

theorem stepYear_state_nonneg (inp : PlanInputs) (u : UserProfile) (st : SimState) (age : ℕ)
    (hc : ContribNonneg inp) (hg : GrowthOK inp) (hst : StateNonneg st) :
    StateNonneg (stepYear inp u st age).1 := by
  obtain ⟨hc1, hc2, hc3, hc4, hc5, hc6, hc7, hc8, hc9⟩ := hc
  obtain ⟨hg1, hg2⟩ := hg
  obtain ⟨h1, h2, h3, h4, h5, h6, h7, h8, h9, h10⟩ := hst
  have hp401 : 0 ≤ (sync401 inp u st age).1 ∧ 0 ≤ (sync401 inp u st age).2 :=
    syncPair_nonneg (post401k inp u st age) st.userBal401k st.spouseBal401k true
      (le_max_left 0 _) h1 h2
  have hcbal : 0 ≤ (wdStepC inp u st age).balRoth ∧ 0 ≤ (wdStepC inp u st age).balHsa :=
    stepC_balances_nonneg (wdStepB inp u st age).remaining
      (st.userBalRoth + st.spouseBalRoth) (st.userBalHsa + st.spouseBalHsa)
      (add_nonneg h3 h4) (add_nonneg h5 h6)
  have hpRoth : 0 ≤ (syncRoth inp u st age).1 ∧ 0 ≤ (syncRoth inp u st age).2 :=
    syncPair_nonneg (wdStepC inp u st age).balRoth st.userBalRoth st.spouseBalRoth
      false hcbal.1 h3 h4
  have hpHsa : 0 ≤ (syncHsa inp u st age).1 ∧ 0 ≤ (syncHsa inp u st age).2 :=
    syncPair_nonneg (wdStepC inp u st age).balHsa st.userBalHsa st.spouseBalHsa
      false hcbal.2 h5 h6
  have hbrok : 0 ≤ (wdStepA inp u st age).balBrokerage :=
    stepA_balBrokerage_nonneg _ _ _ _ h7
  refine ⟨?_, ?_, ?_, ?_, ?_, ?_, ?_, ?_, ?_, ?_⟩
  · rw [stepYear_userBal401k]
    refine mul_nonneg ?_ hg1
    split_ifs
    · exact hp401.1
    · have := hp401.1; linarith
  · rw [stepYear_spouseBal401k]
    refine mul_nonneg ?_ hg1
    split_ifs
    · have := hp401.2; linarith
    · exact hp401.2
  · rw [stepYear_userBalRoth]
    refine mul_nonneg ?_ hg1
    split_ifs
    · exact hpRoth.1
    · have := hpRoth.1; linarith
  · rw [stepYear_spouseBalRoth]
    refine mul_nonneg ?_ hg1
    split_ifs
    · have := hpRoth.2; linarith
    · exact hpRoth.2
  · rw [stepYear_userBalHsa]
    refine mul_nonneg ?_ hg1
    split_ifs
    · exact hpHsa.1
    · have := hpHsa.1; linarith
  · rw [stepYear_spouseBalHsa]
    refine mul_nonneg ?_ hg1
    split_ifs
    · have := hpHsa.2; linarith
    · exact hpHsa.2
  · rw [stepYear_balBrokerage]
    refine mul_nonneg ?_ hg1
    split_ifs
    · exact hbrok
    · linarith
  · rw [stepYear_balSavings]
    exact mul_nonneg h8 hg2
  · rw [stepYear_balMortgage]
    exact yearCtx_balMortgageNext_nonneg inp u st age h9
  · rw [stepYear_balOtherDebt]
    exact h10

theorem stepYear_record_ok (inp : PlanInputs) (u : UserProfile) (st : SimState) (age : ℕ)
    (hc : ContribNonneg inp) (hg : GrowthOK inp) (hst : StateNonneg st) :
    RecordOK (stepYear inp u st age).2 := by
  obtain ⟨k1, k2, k3, k4, k5, k6, k7, k8, k9, k10⟩ :=
    stepYear_state_nonneg inp u st age hc hg hst
  constructor
  · intro e he
    rw [stepYear_assets] at he
    simp only [List.mem_cons, List.not_mem_nil, or_false] at he
    rcases he with rfl | rfl | rfl | rfl | rfl
    · exact add_nonneg k1 k2
    · exact add_nonneg k3 k4
    · exact k7
    · exact k8
    · exact add_nonneg k5 k6
  · intro e he
    rw [stepYear_liabilities] at he
    split_ifs at he with hmpos
    · simp only [List.mem_cons, List.not_mem_nil, or_false] at he
      subst he
      exact hmpos.le
    · simp at he

theorem runYears_nonneg (inp : PlanInputs) (u : UserProfile) (hc : ContribNonneg inp)
    (hg : GrowthOK inp) : ∀ (ages : List ℕ) (st : SimState), StateNonneg st →
      StateNonneg (runYears inp u st ages).1 ∧
        ∀ p ∈ (runYears inp u st ages).2, RecordOK p := by
  intro ages
  induction ages with
  | nil =>
    intro st hst
    exact ⟨hst, by intro p hp; simp [runYears] at hp⟩
  | cons age rest ih =>
    intro st hst
    have hstep := stepYear_state_nonneg inp u st age hc hg hst
    have hrec := stepYear_record_ok inp u st age hc hg hst
    obtain ⟨htail, hpall⟩ := ih (stepYear inp u st age).1 hstep
    refine ⟨htail, ?_⟩
    intro p hp
    rw [runYears] at hp
    simp only [List.mem_cons] at hp
    rcases hp with rfl | hp
    · exact hrec
    · exact hpall p hp

theorem year0Record_ok (u : UserProfile) (startAge : ℕ) (hu : ProfileNonneg u) :
    RecordOK (year0Record u startAge) := by
  obtain ⟨h1, h2, h3, h4, h5, h6, h7, h8, h9, h10, h11, h12, h13, h14, h15⟩ := hu
  constructor
  · intro e he
    simp only [year0Record, initState, List.mem_cons, List.not_mem_nil, or_false] at he
    rcases he with rfl | rfl | rfl | rfl | rfl
    · exact add_nonneg (add_nonneg h1 h2) (add_nonneg h5 h6)
    · exact add_nonneg h3 h7
    · exact h9
    · exact add_nonneg h10 h11
    · exact add_nonneg h4 h8
  · intro e he
    simp only [year0Record, initState] at he
    rw [List.mem_append] at he
    rcases he with he | he <;> split_ifs at he with hpos <;>
      simp only [List.mem_cons, List.not_mem_nil, or_false] at he
    · subst he; exact hpos.le
    · subst he; exact hpos.le

/-- C2: with startAge < endAge, non-negative starting balances and
liabilities, non-negative contribution amounts and growth factors of at
least 0 (rates of at least -100 percent, which every resolved configuration
satisfies), every asset balance and every liability balance in every record
produced by calculate_financial_projections is non-negative. -/
theorem projection_balances_nonneg (inp : PlanInputs) (u : UserProfile)
    (hc : ContribNonneg inp) (hg : GrowthOK inp) (hu : ProfileNonneg u)
    (hse : inp.startAge < inp.endAge) :
    ∀ p ∈ calculate_financial_projections inp u, RecordOK p := by
  intro p hp
  unfold calculate_financial_projections at hp
  rw [if_pos hse.le] at hp
  simp only [List.mem_cons] at hp
  rcases hp with rfl | hp
  · exact year0Record_ok u inp.startAge hu
  · exact (runYears_nonneg inp u hc hg (yearList inp) (initState u)
      (initState_nonneg u hu)).2 p hp

/-! ### The other-debt frame property (C10) -/

theorem stepYear_mortgage_nonneg (inp : PlanInputs) (u : UserProfile) (st : SimState)
    (age : ℕ) (hm : 0 ≤ st.balMortgage) : 0 ≤ (stepYear inp u st age).1.balMortgage := by
  rw [stepYear_balMortgage]
  exact yearCtx_balMortgageNext_nonneg inp u st age hm

theorem runYears_other_debt (inp : PlanInputs) (u : UserProfile) :
    ∀ (ages : List ℕ) (st : SimState), 0 ≤ st.balMortgage →
      (runYears inp u st ages).1.balOtherDebt = st.balOtherDebt ∧
      ∀ p ∈ (runYears inp u st ages).2,
        (∀ e ∈ p.liabilities, e.1 = "Mortgage" ∧ e.2.1 = "mortgage") ∧
        p.totalLiabilities = (p.liabilities.map (fun e => e.2.2)).sum + st.balOtherDebt := by
  intro ages
  induction ages with
  | nil =>
    intro st hm
    exact ⟨rfl, by intro p hp; simp [runYears] at hp⟩
  | cons age rest ih =>
    intro st hm
    have hm2 : 0 ≤ (stepYear inp u st age).1.balMortgage :=
      stepYear_mortgage_nonneg inp u st age hm
    have hOD : (stepYear inp u st age).1.balOtherDebt = st.balOtherDebt :=
      stepYear_balOtherDebt inp u st age
    obtain ⟨htl, hrec⟩ := ih (stepYear inp u st age).1 hm2
    constructor
    · show (runYears inp u (stepYear inp u st age).1 rest).1.balOtherDebt = st.balOtherDebt
      rw [htl, hOD]
    · intro p hp
      rw [runYears] at hp
      simp only [List.mem_cons] at hp
      rcases hp with rfl | hp
      · constructor
        · intro e he
          rw [stepYear_liabilities] at he
          split_ifs at he with h
          · simp only [List.mem_cons, List.not_mem_nil, or_false] at he
            subst he
            exact ⟨rfl, rfl⟩
          · simp at he
        · rw [stepYear_totalLiabilities, stepYear_liabilities]
          split_ifs with h
          · simp
          · simp only [List.map_nil, List.sum_nil, zero_add]
            have hz : (stepYear inp u st age).1.balMortgage = 0 :=
              le_antisymm (not_lt.mp h) hm2
            rw [hz, zero_add]
      · have hrp := hrec p hp
        rw [hOD] at hrp
        exact hrp

/-- C10: stepYear never changes the other-consumer-debt balance, so it keeps
its initial value (credit card + student loan + other debt) through the whole
run; every liabilities-breakdown entry of a year-1+ record is the mortgage
entry (never the other debt), yet totalLiabilities always adds the other
debt on top of the listed mortgage balance. -/
theorem other_debt_constant_and_absent_from_breakdown (inp : PlanInputs) (u : UserProfile)
    (hm : 0 ≤ u.mortgageBalance) (hse : inp.startAge < inp.endAge) :
    (∀ (st : SimState) (age : ℕ), (stepYear inp u st age).1.balOtherDebt = st.balOtherDebt) ∧
    (runYears inp u (initState u) (yearList inp)).1.balOtherDebt =
      u.creditCardDebt + u.studentLoanDebt + u.otherDebt ∧
    ∃ rest, calculate_financial_projections inp u = year0Record u inp.startAge :: rest ∧
      ∀ p ∈ rest,
        (∀ e ∈ p.liabilities, e.1 = "Mortgage" ∧ e.2.1 = "mortgage") ∧
        p.totalLiabilities = (p.liabilities.map (fun e => e.2.2)).sum +
          (u.creditCardDebt + u.studentLoanDebt + u.otherDebt) := by
  have hinit : (initState u).balMortgage = u.mortgageBalance := rfl
  have hD : (initState u).balOtherDebt = u.creditCardDebt + u.studentLoanDebt + u.otherDebt := rfl
  obtain ⟨h1, h2⟩ := runYears_other_debt inp u (yearList inp) (initState u) (hinit ▸ hm)
  refine ⟨fun st age => stepYear_balOtherDebt inp u st age, by rw [h1, hD], ?_⟩
  refine ⟨(runYears inp u (initState u) (yearList inp)).2, ?_, ?_⟩
  · unfold calculate_financial_projections
    rw [if_pos hse.le]
  · intro p hp
    have := h2 p hp
    rw [hD] at this
    exact this

/-! ### Zero-deficit behaviour of the withdrawal steps -/

theorem stepA_no_deficit (fs : String) (ob bb : ℚ) :
    stepA fs 0 ob bb = ⟨bb, 0, 0⟩ := by
  unfold stepA
  rw [if_neg]
  rintro ⟨h, -⟩
  exact lt_irrefl 0 h

theorem stepB_small_remaining (fs : String) (rem ob et mr b4 : ℚ) (h : ¬ 1/10 < rem) :
    stepB fs rem ob et mr b4 = ⟨0, rem, ob⟩ := by
  unfold stepB
  rw [if_neg]
  rintro ⟨h1, -⟩
  exact h h1

theorem stepC_small_remaining (rem br bh : ℚ) (h : ¬ 1/10 < rem) :
    stepC rem br bh = ⟨0, br, bh⟩ := by
  unfold stepC
  rw [if_neg]
  rintro ⟨h1, -⟩
  exact h h1

theorem syncPair_id (ub sb : ℚ) (cl : Bool) (hu : 0 ≤ ub) (hs : 0 ≤ sb) :
    syncPair (ub + sb) ub sb cl = (ub, sb) := by
  unfold syncPair
  by_cases h1 : 0 < ub + sb
  · rw [if_pos h1]
    dsimp only
    have hds : (ub + sb) / (ub + sb) = 1 := div_self (ne_of_gt h1)
    rw [hds]
    have hno : ¬ (cl = true ∧ (1 : ℚ) < 0) := by
      rintro ⟨-, hlt⟩
      exact absurd hlt (by norm_num)
    rw [if_neg hno, mul_one, mul_one]
  · rw [if_neg h1]
    have hub : ub = 0 := le_antisymm (by linarith [not_lt.mp h1]) hu
    have hsb : sb = 0 := le_antisymm (by linarith [not_lt.mp h1]) hs
    rw [hub, hsb]

theorem yearCtx_isRetired_eq (inp : PlanInputs) (u : UserProfile) (st : SimState) (age : ℕ) :
    (yearCtx inp u st age).isRetired = decide (inp.retirementAge ≤ age) := rfl

theorem yearCtx_deficit_eq (inp : PlanInputs) (u : UserProfile) (st : SimState) (age : ℕ) :
    (yearCtx inp u st age).deficit =
      max 0 ((yearCtx inp u st age).requiredOutflow - (yearCtx inp u st age).totalInflow) := rfl

theorem yearCtx_surplus_eq (inp : PlanInputs) (u : UserProfile) (st : SimState) (age : ℕ) :
    (yearCtx inp u st age).surplus =
      max 0 ((yearCtx inp u st age).totalInflow - (yearCtx inp u st age).requiredOutflow) := rfl

/-- C1 amended: the surplus of a year whose inflow covers the required
outflow is never added to any balance: savings end the year at exactly their
start value times the bond growth factor, and brokerage at its start value
(plus the configured contribution if still accumulating) times the portfolio
growth factor — the surplus does not appear. -/
theorem surplus_never_saved (inp : PlanInputs) (u : UserProfile) (st : SimState) (age : ℕ)
    (hle : (yearCtx inp u st age).requiredOutflow ≤ (yearCtx inp u st age).totalInflow) :
    (stepYear inp u st age).1.balSavings = st.balSavings * (1 + inp.bondGrowthRate) ∧
    (stepYear inp u st age).1.balBrokerage =
      (st.balBrokerage + (if (yearCtx inp u st age).isRetired then 0 else inp.cInvest)) *
        (1 + inp.portfolioGrowthRate) := by
  have hd : (yearCtx inp u st age).deficit = 0 := by
    rw [yearCtx_deficit_eq]
    exact max_eq_left (sub_nonpos.mpr hle)
  have ha : wdStepA inp u st age = ⟨st.balBrokerage, 0, 0⟩ := by
    unfold wdStepA
    rw [hd]
    exact stepA_no_deficit _ _ _
  refine ⟨stepYear_balSavings inp u st age, ?_⟩
  rw [stepYear_balBrokerage, ha]
  split_ifs with h
  · rw [add_zero]
  · rfl

/-- C8 amended: with zero growth, bond and inflation rates and all
contribution amounts zero, an accumulation-phase year in which inflow covers
the required outflow and no RMD applies leaves every account balance exactly
unchanged (no spurious growth). Deficit years and RMD years do change
balances, as the counterexample shows. -/
theorem accumulation_identity (inp : PlanInputs) (u : UserProfile) (st : SimState) (age : ℕ)
    (hi : inp.inflationRate = 0) (hp : inp.portfolioGrowthRate = 0)
    (hb : inp.bondGrowthRate = 0)
    (hz : inp.c401k = 0 ∧ inp.cIRA = 0 ∧ inp.cRoth = 0 ∧ inp.cHSA = 0 ∧ inp.cInvest = 0 ∧
      inp.s401k = 0 ∧ inp.sIRA = 0 ∧ inp.sRoth = 0 ∧ inp.sHSA = 0)
    (hacc : age < inp.retirementAge)
    (hle : (yearCtx inp u st age).requiredOutflow ≤ (yearCtx inp u st age).totalInflow)
    (hrmd : (yearCtx inp u st age).rmdAmount = 0)
    (hst : StateNonneg st) :
    (stepYear inp u st age).1.userBal401k = st.userBal401k ∧
    (stepYear inp u st age).1.spouseBal401k = st.spouseBal401k ∧
    (stepYear inp u st age).1.userBalRoth = st.userBalRoth ∧
    (stepYear inp u st age).1.spouseBalRoth = st.spouseBalRoth ∧
    (stepYear inp u st age).1.userBalHsa = st.userBalHsa ∧
    (stepYear inp u st age).1.spouseBalHsa = st.spouseBalHsa ∧
    (stepYear inp u st age).1.balBrokerage = st.balBrokerage ∧
    (stepYear inp u st age).1.balSavings = st.balSavings := by
  obtain ⟨hz1, hz2, hz3, hz4, hz5, hz6, hz7, hz8, hz9⟩ := hz
  obtain ⟨h1, h2, h3, h4, h5, h6, h7, h8, h9, h10⟩ := hst
  have hd : (yearCtx inp u st age).deficit = 0 := by
    rw [yearCtx_deficit_eq]
    exact max_eq_left (sub_nonpos.mpr hle)
  have hret : (yearCtx inp u st age).isRetired = false := by
    rw [yearCtx_isRetired_eq]
    exact decide_eq_false (not_le.mpr hacc)
  have ha : wdStepA inp u st age = ⟨st.balBrokerage, 0, 0⟩ := by
    unfold wdStepA
    rw [hd]
    exact stepA_no_deficit _ _ _
  have hB : wdStepB inp u st age =
      ⟨0, 0, (yearCtx inp u st age).ordinaryIncomeBase⟩ := by
    unfold wdStepB
    rw [ha]
    exact stepB_small_remaining _ _ _ _ _ _ (by norm_num)
  have hC : wdStepC inp u st age =
      ⟨0, st.userBalRoth + st.spouseBalRoth, st.userBalHsa + st.spouseBalHsa⟩ := by
    unfold wdStepC
    rw [hB]
    exact stepC_small_remaining _ _ _ (by norm_num)
  have hpost : post401k inp u st age = st.userBal401k + st.spouseBal401k := by
    unfold post401k
    rw [hrmd, hB]
    show max 0 (st.userBal401k + st.spouseBal401k - 0 - 0) = _
    rw [sub_zero, sub_zero]
    exact max_eq_right (add_nonneg h1 h2)
  have hs401 : sync401 inp u st age = (st.userBal401k, st.spouseBal401k) := by
    unfold sync401
    rw [hpost]
    exact syncPair_id _ _ _ h1 h2
  have hsRoth : syncRoth inp u st age = (st.userBalRoth, st.spouseBalRoth) := by
    unfold syncRoth
    rw [hC]
    exact syncPair_id _ _ _ h3 h4
  have hsHsa : syncHsa inp u st age = (st.userBalHsa, st.spouseBalHsa) := by
    unfold syncHsa
    rw [hC]
    exact syncPair_id _ _ _ h5 h6
  refine ⟨?_, ?_, ?_, ?_, ?_, ?_, ?_, ?_⟩
  · rw [stepYear_userBal401k, hret, hs401, hz1, hz2, hp]
    norm_num
  · rw [stepYear_spouseBal401k, hs401, hz6, hz7, hp]
    split_ifs <;> norm_num
  · rw [stepYear_userBalRoth, hret, hsRoth, hz3, hp]
    norm_num
  · rw [stepYear_spouseBalRoth, hsRoth, hz8, hp]
    split_ifs <;> norm_num
  · rw [stepYear_userBalHsa, hret, hsHsa, hz4, hp]
    norm_num
  · rw [stepYear_spouseBalHsa, hsHsa, hz9, hp]
    split_ifs <;> norm_num
  · rw [stepYear_balBrokerage, hret, ha, hz5, hp]
    norm_num
  · rw [stepYear_balSavings, hb]
    norm_num

/-! ### Concrete runs -/

/-- Plan of the C1 counterexample: already retired, all rates zero, social
security 100000 against a required outflow of 20541. -/
def inpC1 : PlanInputs where
  inflationRate := 0
  portfolioGrowthRate := 0
  bondGrowthRate := 0
  retirementAge := 65
  startAge := 70
  endAge := 71
  socialSecurityStartAge := 67
  estimatedSocialSecurityBenefit := 100000
  pensionIncome := 0
  desiredAnnualRetirementSpending := 10000
  spouseStartAge := none
  spouseRetirementAge := none
  spouseSocialSecurityStartAge := 67
  spouseEstimatedSocialSecurityBenefit := 0
  spousePensionIncome := 0
  c401k := 0
  cIRA := 0
  cRoth := 0
  cHSA := 0
  cInvest := 0
  s401k := 0
  sIRA := 0
  sRoth := 0
  sHSA := 0

/-- Profile of the C1 counterexample: 20000 brokerage and 50000 savings. -/
def uC1 : UserProfile where
  currentIncome := 0
  spouseCurrentIncome := 0
  otherIncome1 := 0
  otherIncome2 := 0
  spouseCurrentAge := 0
  totalMonthlyExpenses := 0
  a401k := 0
  aIRA := 0
  aRoth := 0
  aHSA := 0
  sB401k := 0
  sBIRA := 0
  sBRoth := 0
  sBHSA := 0
  investmentBalance := 20000
  savingsBalance := 50000
  checkingBalance := 0
  mortgageBalance := 0
  creditCardDebt := 0
  studentLoanDebt := 0
  otherDebt := 0

/-- C1 counterexample: in the simulated year at age 71 the surplus is 79459
(inflow 100000 against outflow 20541), yet total assets stay at exactly
70000 across both records — with zero rates and zero contributions the
claimed saving of the surplus would have produced 70000 + 79459. The source
computes the surplus and never adds it to any balance. -/
theorem surplus_discarded_counterexample :
    (yearCtx inpC1 uC1 (initState uC1) 71).surplus = 79459 ∧ (0 : ℚ) < 79459 ∧
    (calculate_financial_projections inpC1 uC1).map Projection.totalAssets = [70000, 70000] ∧
    (70000 : ℚ) ≠ 70000 + 79459 := by
  refine ⟨?_, by norm_num, ?_, by norm_num⟩
  · norm_num [yearCtx, initState, inpC1, uC1, filingStatus, get_rmd_divisor,
      calculate_federal_income_tax, resolveStatus_single, STANDARD_DEDUCTION_2024,
      TAX_BRACKETS_2024, TAX_BRACKETS_single, bracketTax, bracketTop, max_def, min_def]
  · norm_num [calculate_financial_projections, yearList, List.range_succ, year0Record,
      runYears, stepYear, yearCtx, initState, inpC1, uC1, filingStatus, get_rmd_divisor,
      wdStepA, wdStepB, wdStepC, after401kRmd, post401k, sync401, syncRoth, syncHsa,
      syncPair, stepA, stepB, stepC, estCapRate, spouseIsRetired, truthyOpt,
      totalTaxPaid, finalOrdinary, calculate_federal_income_tax,
      calculate_capital_gains_tax, get_marginal_rate, marginalScan, resolveStatus_single,
      STANDARD_DEDUCTION_2024, TAX_BRACKETS_2024, TAX_BRACKETS_single,
      CAP_GAINS_BRACKETS_2024, CAP_GAINS_single, bracketTax, bracketTop, stackTax,
      stackSegEnd, max_def, min_def]

/-- Witness for C1 amended at the concrete retired configuration. -/
theorem surplus_never_saved_witness :
    (stepYear inpC1 uC1 (initState uC1) 71).1.balSavings =
      (initState uC1).balSavings * (1 + inpC1.bondGrowthRate) ∧
    (stepYear inpC1 uC1 (initState uC1) 71).1.balBrokerage =
      ((initState uC1).balBrokerage +
        (if (yearCtx inpC1 uC1 (initState uC1) 71).isRetired then 0 else inpC1.cInvest)) *
        (1 + inpC1.portfolioGrowthRate) :=
  surplus_never_saved inpC1 uC1 (initState uC1) 71
    (by norm_num [yearCtx, initState, inpC1, uC1, filingStatus, get_rmd_divisor,
      calculate_federal_income_tax, resolveStatus_single, STANDARD_DEDUCTION_2024,
      TAX_BRACKETS_2024, TAX_BRACKETS_single, bracketTax, bracketTop, max_def, min_def])

/-- Plan of the C8 counterexample and of several witnesses: accumulation
phase, all rates zero, all contributions zero. -/
def inpC8 : PlanInputs where
  inflationRate := 0
  portfolioGrowthRate := 0
  bondGrowthRate := 0
  retirementAge := 65
  startAge := 30
  endAge := 31
  socialSecurityStartAge := 67
  estimatedSocialSecurityBenefit := 0
  pensionIncome := 0
  desiredAnnualRetirementSpending := 0
  spouseStartAge := none
  spouseRetirementAge := none
  spouseSocialSecurityStartAge := 67
  spouseEstimatedSocialSecurityBenefit := 0
  spousePensionIncome := 0
  c401k := 0
  cIRA := 0
  cRoth := 0
  cHSA := 0
  cInvest := 0
  s401k := 0
  sIRA := 0
  sRoth := 0
  sHSA := 0

/-- Profile of the C8 counterexample: no income, no recorded expenses (the
4000-a-month fallback applies), 100000 in brokerage. -/
def uC8 : UserProfile where
  currentIncome := 0
  spouseCurrentIncome := 0
  otherIncome1 := 0
  otherIncome2 := 0
  spouseCurrentAge := 0
  totalMonthlyExpenses := 0
  a401k := 0
  aIRA := 0
  aRoth := 0
  aHSA := 0
  sB401k := 0
  sBIRA := 0
  sBRoth := 0
  sBHSA := 0
  investmentBalance := 100000
  savingsBalance := 0
  checkingBalance := 0
  mortgageBalance := 0
  creditCardDebt := 0
  studentLoanDebt := 0
  otherDebt := 0

/-- C8 counterexample: all rates and contributions are zero and age 31 is an
accumulation year (31 < 65), yet the 48000 expense deficit triggers a
brokerage withdrawal, so total assets drop from 100000 to 52000 — the
balances after the accumulation year do not equal the balances before it. -/
theorem accumulation_not_identity_counterexample :
    inpC8.inflationRate = 0 ∧ inpC8.portfolioGrowthRate = 0 ∧ inpC8.bondGrowthRate = 0 ∧
    inpC8.c401k = 0 ∧ inpC8.cIRA = 0 ∧ inpC8.cRoth = 0 ∧ inpC8.cHSA = 0 ∧
    inpC8.cInvest = 0 ∧ inpC8.s401k = 0 ∧ inpC8.sIRA = 0 ∧ inpC8.sRoth = 0 ∧
    inpC8.sHSA = 0 ∧
    (calculate_financial_projections inpC8 uC8).map Projection.age = [30, 31] ∧
    (31 : ℕ) < inpC8.retirementAge ∧
    (calculate_financial_projections inpC8 uC8).map Projection.totalAssets =
      [100000, 52000] ∧
    (52000 : ℚ) ≠ 100000 := by
  refine ⟨rfl, rfl, rfl, rfl, rfl, rfl, rfl, rfl, rfl, rfl, rfl, rfl, ?_,
    by norm_num [inpC8], ?_, by norm_num⟩
  · norm_num [calculate_financial_projections, yearList, List.range_succ, year0Record,
      runYears, stepYear, inpC8, uC8]
  · norm_num [calculate_financial_projections, yearList, List.range_succ, year0Record,
      runYears, stepYear, yearCtx, initState, inpC8, uC8, filingStatus, get_rmd_divisor,
      wdStepA, wdStepB, wdStepC, after401kRmd, post401k, sync401, syncRoth, syncHsa,
      syncPair, stepA, stepB, stepC, estCapRate, spouseIsRetired, truthyOpt,
      totalTaxPaid, finalOrdinary, calculate_federal_income_tax,
      calculate_capital_gains_tax, get_marginal_rate, marginalScan, resolveStatus_single,
      STANDARD_DEDUCTION_2024, TAX_BRACKETS_2024, TAX_BRACKETS_single,
      CAP_GAINS_BRACKETS_2024, CAP_GAINS_single, bracketTax, bracketTop, stackTax,
      stackSegEnd, max_def, min_def]

/-- Profile for the C8-amended witness: salary 100000 comfortably covers the
12000 living expenses plus 13841 estimated tax, so the year has no deficit. -/
def uC8w : UserProfile where
  currentIncome := 100000
  spouseCurrentIncome := 0
  otherIncome1 := 0
  otherIncome2 := 0
  spouseCurrentAge := 0
  totalMonthlyExpenses := 1000
  a401k := 3000
  aIRA := 0
  aRoth := 400
  aHSA := 200
  sB401k := 0
  sBIRA := 0
  sBRoth := 0
  sBHSA := 0
  investmentBalance := 5000
  savingsBalance := 2000
  checkingBalance := 0
  mortgageBalance := 0
  creditCardDebt := 0
  studentLoanDebt := 0
  otherDebt := 0

/-- Witness for C8 amended at a concrete no-deficit accumulation year. -/
theorem accumulation_identity_witness :
    (stepYear inpC8 uC8w (initState uC8w) 31).1.userBal401k = (initState uC8w).userBal401k ∧
    (stepYear inpC8 uC8w (initState uC8w) 31).1.spouseBal401k = (initState uC8w).spouseBal401k ∧
    (stepYear inpC8 uC8w (initState uC8w) 31).1.userBalRoth = (initState uC8w).userBalRoth ∧
    (stepYear inpC8 uC8w (initState uC8w) 31).1.spouseBalRoth = (initState uC8w).spouseBalRoth ∧
    (stepYear inpC8 uC8w (initState uC8w) 31).1.userBalHsa = (initState uC8w).userBalHsa ∧
    (stepYear inpC8 uC8w (initState uC8w) 31).1.spouseBalHsa = (initState uC8w).spouseBalHsa ∧
    (stepYear inpC8 uC8w (initState uC8w) 31).1.balBrokerage = (initState uC8w).balBrokerage ∧
    (stepYear inpC8 uC8w (initState uC8w) 31).1.balSavings = (initState uC8w).balSavings :=
  accumulation_identity inpC8 uC8w (initState uC8w) 31 rfl rfl rfl
    ⟨rfl, rfl, rfl, rfl, rfl, rfl, rfl, rfl, rfl⟩
    (by norm_num [inpC8])
    (by norm_num [yearCtx, initState, inpC8, uC8w, filingStatus, get_rmd_divisor,
      calculate_federal_income_tax, resolveStatus_single, STANDARD_DEDUCTION_2024,
      TAX_BRACKETS_2024, TAX_BRACKETS_single, bracketTax, bracketTop, max_def, min_def])
    (by norm_num [yearCtx, initState, inpC8, uC8w, get_rmd_divisor])
    (by norm_num [StateNonneg, initState, uC8w])

/-- Witness for C2: the year-0 record of a concrete run satisfies RecordOK,
extracted by applying the claim theorem at that concrete configuration. -/
theorem projection_balances_nonneg_witness :
    RecordOK (year0Record uC8w inpC8.startAge) := by
  refine projection_balances_nonneg inpC8 uC8w ?_ ?_ ?_ ?_ (year0Record uC8w inpC8.startAge) ?_
  · norm_num [ContribNonneg, inpC8]
  · norm_num [GrowthOK, inpC8]
  · norm_num [ProfileNonneg, uC8w]
  · norm_num [inpC8]
  · unfold calculate_financial_projections
    rw [if_pos (by norm_num [inpC8])]
    exact List.mem_cons_self _ _

/-- Profile for the C10 witness: a mortgage of 120000 and 9000 of
other consumer debt. -/
def uC10 : UserProfile where
  currentIncome := 50000
  spouseCurrentIncome := 0
  otherIncome1 := 0
  otherIncome2 := 0
  spouseCurrentAge := 0
  totalMonthlyExpenses := 2000
  a401k := 10000
  aIRA := 0
  aRoth := 0
  aHSA := 0
  sB401k := 0
  sBIRA := 0
  sBRoth := 0
  sBHSA := 0
  investmentBalance := 20000
  savingsBalance := 5000
  checkingBalance := 0
  mortgageBalance := 120000
  creditCardDebt := 4000
  studentLoanDebt := 3000
  otherDebt := 2000

/-- Witness for C10 at a concrete mortgaged and indebted profile. -/
theorem other_debt_constant_witness :
    (∀ (st : SimState) (age : ℕ),
      (stepYear inpC8 uC10 st age).1.balOtherDebt = st.balOtherDebt) ∧
    (runYears inpC8 uC10 (initState uC10) (yearList inpC8)).1.balOtherDebt =
      uC10.creditCardDebt + uC10.studentLoanDebt + uC10.otherDebt ∧
    ∃ rest, calculate_financial_projections inpC8 uC10 =
        year0Record uC10 inpC8.startAge :: rest ∧
      ∀ p ∈ rest,
        (∀ e ∈ p.liabilities, e.1 = "Mortgage" ∧ e.2.1 = "mortgage") ∧
        p.totalLiabilities = (p.liabilities.map (fun e => e.2.2)).sum +
          (uC10.creditCardDebt + uC10.studentLoanDebt + uC10.otherDebt) :=
  other_debt_constant_and_absent_from_breakdown inpC8 uC10
    (by norm_num [uC10]) (by norm_num [inpC8])

end Reazy
